import Mathlib

/-!
Verification development for the qwikjs-invoice repository.

The invoice editor keeps a single mutable Invoice record, derives
subtotal, tax amount and total on every render, and generates a PDF
through a drawing library. This file gives a shallow embedding of the
data model (src/src/types/invoice.ts), the derived-total computation and
the PDF generation sequence (routes index page, file part_003), and the
line-item handlers (LineItems component, file part_001). JavaScript
numbers are embedded as rationals; the places where NaN matters (the
input-coercion handlers) use an explicit JsNum type with a NaN value.
-/

/-- Address record, from src/src/types/invoice.ts. -/
structure Address where
  name : String
  email : String
  address : String
deriving DecidableEq

/-- Line item record, from src/src/types/invoice.ts. JavaScript numbers are
embedded as rationals. -/
structure LineItem where
  id : ℚ
  description : String
  quantity : ℚ
  price : ℚ
deriving DecidableEq

/-- Invoice record, from src/src/types/invoice.ts. The source fields named
from and to are renamed fromAddr and toAddr because from is a Lean keyword. -/
structure Invoice where
  id : String
  createdAt : String
  dueDate : String
  fromAddr : Address
  toAddr : Address
  items : List LineItem
  notes : String
  taxRate : ℚ
deriving DecidableEq

/-- The two initial line items of the store, part_003 lines 143-146. -/
def initialItems : List LineItem :=
  [{ id := 1, description := "Web Development Services", quantity := 10, price := 85 },
   { id := 2, description := "Server Setup", quantity := 2, price := 150 }]

/-- The initial invoice store, part_003 lines 118-153. The id and the two
dates are produced from the wall clock at session start, so they are
parameters here. -/
def initialInvoice (id createdAt dueDate : String) : Invoice :=
  { id := id
    createdAt := createdAt
    dueDate := dueDate
    fromAddr := { name := "My Company LLC"
                  email := "hello@mycompany.com"
                  address := "123 Tech Blvd, San Francisco, CA 94107" }
    toAddr := { name := "Client Name"
                email := "client@business.com"
                address := "456 Market St, New York, NY 10001" }
    items := initialItems
    notes := "Payment is due within 14 days.\nThis document remains valid even without a signature.\nThank you for your business!"
    taxRate := 8 }

/-- A concrete instance of the initial store used by the concrete-input
theorems below. -/
def sampleInvoice : Invoice :=
  initialInvoice "INV-20250001" "2025-10-11" "2025-10-25"

/-- Derived subtotal, part_003 line 175: items.reduce with the accumulator
sum + quantity * price starting from 0. -/
def subtotal (inv : Invoice) : ℚ :=
  inv.items.foldl (fun sum item => sum + item.quantity * item.price) 0

/-- Derived tax amount, part_003 line 179: subtotal * (taxRate / 100). -/
def taxAmount (inv : Invoice) : ℚ :=
  subtotal inv * (inv.taxRate / 100)

/-- Derived grand total, part_003 line 182: subtotal + taxAmount. -/
def total (inv : Invoice) : ℚ :=
  subtotal inv + taxAmount inv

/-- Two-digit zero padding used by the cents part of toFixed2. -/
def pad2 (n : ℕ) : String :=
  if n < 10 then "0" ++ toString n else toString n

/-- Renders a natural number of cents as a decimal string with two
fractional digits. -/
def natFixed2 (n : ℕ) : String :=
  toString (n / 100) ++ "." ++ pad2 (n % 100)

/-- Models the JavaScript call toFixed(2) on the rational embedding of a
number: round to the nearest hundredth, ties away from zero on the
magnitude, then print with exactly two decimals. -/
def toFixed2 (q : ℚ) : String :=
  if q < 0 then "-" ++ natFixed2 (Int.toNat ⌊-q * 100 + 1/2⌋)
  else natFixed2 (Int.toNat ⌊q * 100 + 1/2⌋)

/-- Models the default JavaScript number-to-string conversion on the
rational embedding; it agrees with JavaScript output on the integral
values that occur in this development. -/
def jsNumToString (q : ℚ) : String :=
  toString q

/-- On-screen subtotal figure, part_003 line 521: a dollar sign followed by
subtotal.toFixed(2). -/
def screenSubtotalText (inv : Invoice) : String :=
  "$" ++ toFixed2 (subtotal inv)

/-- On-screen tax figure, part_003 line 537: a dollar sign followed by
taxAmount.toFixed(2). -/
def screenTaxAmountText (inv : Invoice) : String :=
  "$" ++ toFixed2 (taxAmount inv)

/-- On-screen grand-total figure, part_003 line 543: a dollar sign followed
by total.toFixed(2). -/
def screenTotalText (inv : Invoice) : String :=
  "$" ++ toFixed2 (total inv)

/-- One drawing-engine call made by handleDownload during PDF generation,
part_003 lines 298-380. textWrapped stands for the pair splitTextToSize
followed by text, with the width budget recorded. warn records the
console warning emitted when embedding the logo throws. -/
inductive PdfOp where
  | setFontSize (size : ℚ)
  | setTextColor (r g b : ℕ)
  | text (s : String) (x y : ℚ)
  | textWrapped (s : String) (maxWidth x y : ℚ)
  | addImage (data format : String) (x y w h : ℚ)
  | warn (msg : String)
  | autoTable (startY : ℚ) (head body foot : List (List String))
  | save (filename : String)
deriving DecidableEq

/-- True exactly on the console-warning operation. -/
def PdfOp.isWarn : PdfOp → Bool
  | .setFontSize _ => false
  | .setTextColor _ _ _ => false
  | .text _ _ _ => false
  | .textWrapped _ _ _ _ => false
  | .addImage _ _ _ _ _ _ => false
  | .warn _ => true
  | .autoTable _ _ _ _ => false
  | .save _ => false

/-- True exactly on the logo-embedding operation. -/
def PdfOp.isImage : PdfOp → Bool
  | .setFontSize _ => false
  | .setTextColor _ _ _ => false
  | .text _ _ _ => false
  | .textWrapped _ _ _ _ => false
  | .addImage _ _ _ _ _ _ => true
  | .warn _ => false
  | .autoTable _ _ _ _ => false
  | .save _ => false

/-- True exactly on the metadata text lines, which all start with the
string Invoice number sign, Date: or Due Date:, part_003 lines 322-324. -/
def PdfOp.isMetadataText : PdfOp → Bool
  | .setFontSize _ => false
  | .setTextColor _ _ _ => false
  | .text s _ _ =>
      List.isPrefixOf "Invoice #".toList s.toList ||
      List.isPrefixOf "Date: ".toList s.toList ||
      List.isPrefixOf "Due Date: ".toList s.toList
  | .textWrapped _ _ _ _ => false
  | .addImage _ _ _ _ _ _ => false
  | .warn _ => false
  | .autoTable _ _ _ _ => false
  | .save _ => false

/-- The printAddress helper of handleDownload, part_003 lines 328-341. -/
def printAddress (label : String) (data : Address) (xPos : ℚ) : List PdfOp :=
  [.setFontSize 12, .setTextColor 0 0 0, .text label xPos 55,
   .setFontSize 10, .setTextColor 60 60 60,
   .text data.name xPos 62, .text data.email xPos 67,
   .textWrapped data.address 80 xPos 72]

/-- The table body rows, part_003 lines 349-354: one row per line item with
description, quantity, unit price and line total. -/
def tableBody (inv : Invoice) : List (List String) :=
  inv.items.map fun item =>
    [item.description,
     jsNumToString item.quantity,
     "$" ++ toFixed2 item.price,
     "$" ++ toFixed2 (item.quantity * item.price)]

/-- The three table footer rows, part_003 lines 363-367. -/
def pdfFoot (inv : Invoice) : List (List String) :=
  [["", "", "Subtotal", "$" ++ toFixed2 (subtotal inv)],
   ["", "", "Tax (" ++ jsNumToString inv.taxRate ++ "%)", "$" ++ toFixed2 (taxAmount inv)],
   ["", "", "Total", "$" ++ toFixed2 (total inv)]]

/-- The logo step of handleDownload, part_003 lines 309-317: nothing when no
logo is set; otherwise addImage, or the caught-and-warned path when the
drawing engine throws. -/
def logoOps (logoUrl : Option String) (logoEmbedFails : Bool) : List PdfOp :=
  match logoUrl with
  | none => []
  | some u =>
      if logoEmbedFails then [.warn "Could not embed logo in PDF:"]
      else [.addImage u "PNG" 150 10 45 15]

/-- The drawing-call sequence of handleDownload, part_003 lines 298-380.
finalY is the value reported by the table engine as lastAutoTable.finalY;
the notes block is placed relative to it (lines 372-376), and the last
step saves the document under the invoice id with a pdf extension
(line 380). -/
def renderInvoicePDF (inv : Invoice) (logoUrl : Option String)
    (logoEmbedFails : Bool) (finalY : ℚ) : List PdfOp :=
  [.setFontSize 22, .setTextColor 40 40 40, .text "INVOICE" 14 20]
  ++ logoOps logoUrl logoEmbedFails
  ++ [.setFontSize 10, .setTextColor 100 100 100,
      .text ("Invoice #" ++ inv.id) 14 30,
      .text ("Date: " ++ inv.createdAt) 14 35,
      .text ("Due Date: " ++ inv.dueDate) 14 40]
  ++ printAddress "FROM:" inv.fromAddr 14
  ++ printAddress "TO:" inv.toAddr 120
  ++ [.autoTable 95 [["Description", "Qty", "Price", "Total"]] (tableBody inv) (pdfFoot inv)]
  ++ [.setFontSize 10, .setTextColor 100 100 100,
      .text "Notes:" 14 (finalY + 10),
      .text inv.notes 14 (finalY + 10 + 5)]
  ++ [.save (inv.id ++ ".pdf")]

/-- The addItem handler of the LineItems component, part_001 lines 80-87:
push a new item with the current wall-clock timestamp as id, empty
description, quantity 1 and price 0. The timestamp is a parameter. -/
def addItem (now : ℚ) (items : List LineItem) : List LineItem :=
  items ++ [{ id := now, description := "", quantity := 1, price := 0 }]

/-- The removeItem handler, part_001 lines 101-103: splice(index, 1) for a
non-negative index, which deletes the element at that position when it
exists and nothing otherwise. -/
def removeItem (items : List LineItem) (index : ℕ) : List LineItem :=
  items.take index ++ items.drop (index + 1)

/-- JavaScript number values as observed by the input handlers: NaN, signed
infinity, or a finite value embedded as a rational. -/
inductive JsNum where
  | nan
  | inf (positive : Bool)
  | num (val : ℚ)
deriving DecidableEq

/-- JavaScript truthiness of a number: NaN and zero are falsy. -/
def jsTruthy : JsNum → Bool
  | .nan => false
  | .inf _ => true
  | .num q => decide (q ≠ 0)

/-- JavaScript logical-or on numbers: the left operand unless it is falsy. -/
def jsOr (a b : JsNum) : JsNum :=
  if jsTruthy a then a else b

/-- The whitespace characters skipped by the JavaScript numeric
conversions. -/
def isJsWhitespace (c : Char) : Bool :=
  c = ' ' || c = '\t' || c = '\n' || c = '\r' || c = '\x0b' || c = '\x0c'

/-- Numeric value of a list of decimal digit characters; 48 is the code
point of the zero digit. -/
def digitsToNat (ds : List Char) : ℕ :=
  ds.foldl (fun n c => 10 * n + (c.toNat - 48)) 0

/-- Value of an integer part together with a fraction part. -/
def decMantissa (ip fp : List Char) : ℚ :=
  (digitsToNat ip : ℚ) + (digitsToNat fp : ℚ) / 10 ^ fp.length

/-- Applies a well-formed exponent suffix when present and leaves the input
untouched otherwise; orig is returned as the unconsumed suffix when the
exponent marker is not followed by digits. -/
def applyExponentAux (m : ℚ) (orig rest : List Char) : ℚ × List Char :=
  let (neg, r2) :=
    match rest with
    | '+' :: r => (false, r)
    | '-' :: r => (true, r)
    | _ => (false, rest)
  let (ed, r3) := r2.span Char.isDigit
  if ed.isEmpty then (m, orig)
  else if neg then (m / 10 ^ digitsToNat ed, r3)
  else (m * 10 ^ digitsToNat ed, r3)

/-- Consumes a decimal exponent marker when one follows. -/
def applyExponent (m : ℚ) (cs : List Char) : ℚ × List Char :=
  match cs with
  | 'e' :: rest => applyExponentAux m cs rest
  | 'E' :: rest => applyExponentAux m cs rest
  | _ => (m, cs)

/-- Longest-prefix parse of an unsigned JavaScript decimal literal: digits,
an optional fraction and an optional exponent. Returns the value and the
unconsumed suffix, or none when no digit is found. -/
def parseUnsignedDecimal (cs : List Char) : Option (ℚ × List Char) :=
  let (ip, r1) := cs.span Char.isDigit
  match r1 with
  | '.' :: rest =>
      let (fp, r2) := rest.span Char.isDigit
      if ip.isEmpty && fp.isEmpty then none
      else some (applyExponent (decMantissa ip fp) r2)
  | _ =>
      if ip.isEmpty then none
      else some (applyExponent (decMantissa ip []) r1)

/-- Models the JavaScript parseFloat builtin used by the quantity and price
handlers: skip leading whitespace, read an optional sign, then the
longest numeric prefix; NaN when none exists. -/
def jsParseFloat (s : String) : JsNum :=
  let cs := s.toList.dropWhile isJsWhitespace
  let (neg, cs2) :=
    match cs with
    | '-' :: r => (true, r)
    | '+' :: r => (false, r)
    | _ => (false, cs)
  if List.isPrefixOf "Infinity".toList cs2 then JsNum.inf (!neg)
  else
    match parseUnsignedDecimal cs2 with
    | none => JsNum.nan
    | some (m, _) => JsNum.num (if neg then -m else m)

/-- Value of a hexadecimal digit character, working on code points: digits
occupy 48 to 57, lowercase letters from 97 carry value 10 upward, and
uppercase letters from 65 likewise. -/
def hexDigitVal (c : Char) : Option ℕ :=
  let p := c.toNat
  if 48 ≤ p && p ≤ 57 then some (p - 48)
  else if 97 ≤ p && p ≤ 102 then some (p - 87)
  else if 65 ≤ p && p ≤ 70 then some (p - 55)
  else none

/-- Whole-string parse of digits in the given base. -/
def parseRadix (base : ℕ) (cs : List Char) : Option ℕ :=
  if cs.isEmpty then none
  else
    cs.foldl
      (fun acc c =>
        match acc, hexDigitVal c with
        | some n, some d => if d < base then some (base * n + d) else none
        | _, _ => none)
      (some 0)

/-- Interprets a radix-prefixed integer literal body, NaN on failure. -/
def radixNum (base : ℕ) (cs : List Char) : JsNum :=
  match parseRadix base cs with
  | some n => JsNum.num (n : ℚ)
  | none => JsNum.nan

/-- Trims the whitespace the JavaScript Number conversion ignores at both
ends. -/
def trimJsWhitespace (cs : List Char) : List Char :=
  ((cs.dropWhile isJsWhitespace).reverse.dropWhile isJsWhitespace).reverse

/-- Decimal branch of the JavaScript Number conversion: an optional sign
followed by Infinity or by a decimal literal spanning the whole rest. -/
def jsNumberDecimal (cs : List Char) : JsNum :=
  let (neg, cs2) :=
    match cs with
    | '-' :: r => (true, r)
    | '+' :: r => (false, r)
    | _ => (false, cs)
  if cs2 = "Infinity".toList then JsNum.inf (!neg)
  else
    match parseUnsignedDecimal cs2 with
    | some (m, []) => JsNum.num (if neg then -m else m)
    | _ => JsNum.nan

/-- Models the JavaScript Number builtin used by the tax-rate handler:
trim whitespace, the empty string is 0, radix-prefixed integers are
accepted, otherwise the whole string must be a decimal literal; anything
else is NaN. -/
def jsNumber (s : String) : JsNum :=
  match trimJsWhitespace s.toList with
  | [] => JsNum.num 0
  | '0' :: c :: rest =>
      if c = 'x' || c = 'X' then radixNum 16 rest
      else if c = 'o' || c = 'O' then radixNum 8 rest
      else if c = 'b' || c = 'B' then radixNum 2 rest
      else jsNumberDecimal ('0' :: c :: rest)
  | cs => jsNumberDecimal cs

/-- The quantity input handler, part_001 line 192: parseFloat of the field
text, with 0 substituted when the parse result is falsy. -/
def quantityOnInput (s : String) : JsNum :=
  jsOr (jsParseFloat s) (JsNum.num 0)

/-- The price input handler, part_001 line 217: parseFloat of the field
text, with 0 substituted when the parse result is falsy. -/
def priceOnInput (s : String) : JsNum :=
  jsOr (jsParseFloat s) (JsNum.num 0)

/-- The tax-rate input handler, part_003 line 532: Number of the field text,
where the string-or expression first replaces an empty field text by the
number 0. -/
def taxRateOnInput (s : String) : JsNum :=
  if s = "" then JsNum.num 0 else jsNumber s

/-- State of the simulated send action: the isSending signal of the page,
part_003 line 91, plus a ghost count of handler executions currently
inside the simulated delay. -/
structure SendState where
  isSending : Bool
  inFlight : ℕ
deriving DecidableEq

/-- Entry of the handleSend handler, part_003 lines 203-207: set isSending
and enter the simulated delay. The handler body contains no reentrancy
check. -/
def handleSendBegin (s : SendState) : SendState :=
  { isSending := true, inFlight := s.inFlight + 1 }

/-- Completion of the handleSend handler, part_003 lines 210-212: the alert
fires and isSending is cleared. -/
def handleSendComplete (s : SendState) : SendState :=
  { isSending := false, inFlight := s.inFlight - 1 }

/-- A user click on the Send Invoice button, part_003 lines 448-455: the
button carries disabled bound to isSending, and a disabled button fires
no click event, so the handler runs only when no send is pending. -/
def sendButtonClick (s : SendState) : SendState :=
  if s.isSending then s else handleSendBegin s

/-- Folding the reduce accumulator of the subtotal over a list equals the
initial value plus the sum of the line totals. -/
theorem foldl_line_totals (l : List LineItem) (init : ℚ) :
    l.foldl (fun sum item => sum + item.quantity * item.price) init
      = init + (l.map fun item => item.quantity * item.price).sum := by
  induction l generalizing init with
  | nil => simp
  | cons a t ih => simp [ih, add_assoc]

/-- C1: for every invoice state, the derived totals computed on render
satisfy: subtotal is the sum over the items of quantity times price,
taxAmount is subtotal times taxRate over 100, total is subtotal plus
taxAmount, and hence total is subtotal plus subtotal times taxRate over
100. -/
theorem totals_invariant (inv : Invoice) :
    subtotal inv = (inv.items.map fun item => item.quantity * item.price).sum ∧
    taxAmount inv = subtotal inv * inv.taxRate / 100 ∧
    total inv = subtotal inv + taxAmount inv ∧
    total inv = subtotal inv + subtotal inv * inv.taxRate / 100 := by
  refine ⟨?_, ?_, rfl, ?_⟩
  · rw [subtotal, foldl_line_totals, zero_add]
  · rw [taxAmount, mul_div_assoc]
  · rw [total, taxAmount, mul_div_assoc]

/-- C7: appending a new item with the add-item handler and then removing
the item at its assigned position, the previous length, restores the
original item sequence. -/
theorem add_then_remove_roundtrip (items : List LineItem) (now : ℚ) :
    removeItem (addItem now items) items.length = items := by
  simp [removeItem, addItem]

/-- C10: removing at any index at or past the end of the item sequence
leaves the sequence unchanged. -/
theorem removeItem_out_of_range_noop (items : List LineItem) (index : ℕ)
    (h : items.length ≤ index) : removeItem items index = items := by
  rw [removeItem, List.take_of_length_le h, List.drop_eq_nil_of_le (by omega)]
  simp

/-- Witness for removeItem_out_of_range_noop at the initial two-item list
and index 5. -/
theorem removeItem_out_of_range_noop_witness :
    initialItems.length ≤ 5 ∧ removeItem initialItems 5 = initialItems :=
  ⟨by decide, removeItem_out_of_range_noop initialItems 5 (by decide)⟩

/-- C6 counterexample: starting from the initial items, adding an item at
clock value 1760000000000 and then adding a second item inside the same
clock tick assigns the same id twice, so the fresh id is not unique among
the existing ids. -/
theorem addItem_id_collision :
    (((addItem 1760000000000 (addItem 1760000000000 initialItems)).map
        LineItem.id).count 1760000000000) = 2 := by
  decide

/-- C6 amended: a newly added line item is appended after all existing
items, carries quantity 1, price 0, an empty description, and the current
wall-clock timestamp as id; the resulting ids are pairwise distinct
exactly when the prior ids were and no existing item already carries that
timestamp, so the fresh id is unique only when the clock value differs
from every existing id. -/
theorem addItem_spec_amended (items : List LineItem) (now : ℚ) :
    (addItem now items).take items.length = items ∧
    (addItem now items).getLast? =
      some { id := now, description := "", quantity := 1, price := 0 } ∧
    (((addItem now items).map LineItem.id).Nodup ↔
      (items.map LineItem.id).Nodup ∧ now ∉ items.map LineItem.id) := by
  refine ⟨by simp [addItem], by simp [addItem], ?_⟩
  simp [addItem, List.nodup_append]

/-- C8: for the initial item sequence, quantities 10 and 2 at prices 85 and
150, and tax rate 8, the computed totals are 1150, 92 and 1242, and the
two-decimal presentation renders them as 1150.00, 92.00 and 1242.00. -/
theorem example_totals_values :
    subtotal sampleInvoice = 1150 ∧
    taxAmount sampleInvoice = 92 ∧
    total sampleInvoice = 1242 ∧
    toFixed2 (subtotal sampleInvoice) = "1150.00" ∧
    toFixed2 (taxAmount sampleInvoice) = "92.00" ∧
    toFixed2 (total sampleInvoice) = "1242.00" := by
  have hs : subtotal sampleInvoice = 1150 := by
    simp [subtotal, sampleInvoice, initialInvoice, initialItems]
    norm_num
  have ht : taxAmount sampleInvoice = 92 := by
    rw [taxAmount, hs]
    simp [sampleInvoice, initialInvoice]
    norm_num
  have hg : total sampleInvoice = 1242 := by
    rw [total, hs, ht]
    norm_num
  refine ⟨hs, ht, hg, ?_, ?_, ?_⟩
  · rw [hs, toFixed2, if_neg (by norm_num)]
    have : (⌊(1150 : ℚ) * 100 + 1/2⌋) = 115000 := by norm_num
    rw [this]
    decide
  · rw [ht, toFixed2, if_neg (by norm_num)]
    have : (⌊(92 : ℚ) * 100 + 1/2⌋) = 9200 := by norm_num
    rw [this]
    decide
  · rw [hg, toFixed2, if_neg (by norm_num)]
    have : (⌊(1242 : ℚ) * 100 + 1/2⌋) = 124200 := by norm_num
    rw [this]
    decide

/-- C2: for every invoice state, the three figures written into the PDF
table footer are exactly the on-screen subtotal, tax and total strings
for the same state, and the subtotal figure is the two-decimal rendering
of the sum of the line totals. -/
theorem pdf_matches_screen (inv : Invoice) :
    pdfFoot inv =
      [["", "", "Subtotal", screenSubtotalText inv],
       ["", "", "Tax (" ++ jsNumToString inv.taxRate ++ "%)", screenTaxAmountText inv],
       ["", "", "Total", screenTotalText inv]] ∧
    screenSubtotalText inv =
      "$" ++ toFixed2 ((inv.items.map fun item => item.quantity * item.price).sum) := by
  constructor
  · rfl
  · rw [screenSubtotalText, subtotal, foldl_line_totals, zero_add]

/-- C4 counterexample: typing the non-numeric text abc into the tax-rate
field stores NaN in the invoice, not 0; the handler only replaces an
empty field text by 0 before applying the Number conversion. -/
theorem tax_input_nan_counterexample :
    taxRateOnInput "abc" = JsNum.nan := by
  decide

/-- C4 amended: for a string with no numeric prefix, the quantity and price
handlers store 0, and the tax-rate handler stores 0 for the empty string
but NaN for any non-empty string the Number conversion rejects. -/
theorem input_coercion_amended (s : String) (h1 : jsParseFloat s = JsNum.nan)
    (h2 : jsNumber s = JsNum.nan) (h3 : s ≠ "") :
    quantityOnInput s = JsNum.num 0 ∧
    priceOnInput s = JsNum.num 0 ∧
    taxRateOnInput s = JsNum.nan ∧
    taxRateOnInput "" = JsNum.num 0 := by
  refine ⟨?_, ?_, ?_, rfl⟩
  · rw [quantityOnInput, h1]
    rfl
  · rw [priceOnInput, h1]
    rfl
  · rw [taxRateOnInput, if_neg h3, h2]

/-- Witness for input_coercion_amended at the non-numeric string abc. -/
theorem input_coercion_amended_witness :
    jsParseFloat "abc" = JsNum.nan ∧
    jsNumber "abc" = JsNum.nan ∧
    "abc" ≠ "" ∧
    (quantityOnInput "abc" = JsNum.num 0 ∧
     priceOnInput "abc" = JsNum.num 0 ∧
     taxRateOnInput "abc" = JsNum.nan ∧
     taxRateOnInput "" = JsNum.num 0) :=
  ⟨by decide, by decide, by decide,
   input_coercion_amended "abc" (by decide) (by decide) (by decide)⟩

/-- C5 counterexample: once a send has begun and is still inside its
simulated delay, a further click on the Send Invoice button leaves the
state unchanged, because the button is disabled while isSending holds;
no second send starts, contradicting that the user can invoke send again
through the button. -/
theorem send_button_guarded_counterexample :
    sendButtonClick (handleSendBegin { isSending := false, inFlight := 0 })
      = handleSendBegin { isSending := false, inFlight := 0 } := by
  decide

/-- C5 amended: while a send is pending, the Send Invoice button is
disabled, so a user click cannot start a second send; the handler itself,
however, contains no reentrancy guard, so invoking it directly while a
send is pending does begin a second overlapping send. -/
theorem send_double_submit_amended (s : SendState) (h : s.isSending = true) :
    sendButtonClick s = s ∧
    (handleSendBegin s).inFlight = s.inFlight + 1 ∧
    (handleSendBegin s).isSending = true := by
  refine ⟨?_, rfl, rfl⟩
  rw [sendButtonClick, if_pos h]

/-- Witness for send_double_submit_amended at a state with one pending
send. -/
theorem send_double_submit_amended_witness :
    ({ isSending := true, inFlight := 1 } : SendState).isSending = true ∧
    (sendButtonClick { isSending := true, inFlight := 1 }
        = { isSending := true, inFlight := 1 } ∧
     (handleSendBegin { isSending := true, inFlight := 1 }).inFlight = 1 + 1 ∧
     (handleSendBegin { isSending := true, inFlight := 1 }).isSending = true) :=
  ⟨rfl, send_double_submit_amended { isSending := true, inFlight := 1 } rfl⟩

/-- C3 counterexample: in the generated drawing sequence for the initial
invoice with a logo present, the logo-embedding operation comes strictly
before every metadata text line, so the claimed order with the metadata
block before the optional logo is false for the code. -/
theorem render_logo_before_metadata :
    (renderInvoicePDF sampleInvoice (some "data:image/png;base64,LOGO") false 100).findIdx
        PdfOp.isImage
      <
    (renderInvoicePDF sampleInvoice (some "data:image/png;base64,LOGO") false 100).findIdx
        PdfOp.isMetadataText := by
  decide

/-- C3 amended: for every invoice, logo payload and reported table end, the
drawing sequence contains, in this order: the title, the logo image, the
three metadata lines, the FROM and TO labels, the items table with its
header row, one body row per line item and a three-row footer, the notes
drawn at the reported table end plus the fixed margin of 10 and the notes
text 5 below that; and the final operation saves the document under the
invoice id with the pdf extension. -/
theorem render_sequence_amended (inv : Invoice) (logoData : String) (finalY : ℚ) :
    List.Sublist
      [PdfOp.text "INVOICE" 14 20,
       PdfOp.addImage logoData "PNG" 150 10 45 15,
       PdfOp.text ("Invoice #" ++ inv.id) 14 30,
       PdfOp.text ("Date: " ++ inv.createdAt) 14 35,
       PdfOp.text ("Due Date: " ++ inv.dueDate) 14 40,
       PdfOp.text "FROM:" 14 55,
       PdfOp.text "TO:" 120 55,
       PdfOp.autoTable 95 [["Description", "Qty", "Price", "Total"]]
         (tableBody inv) (pdfFoot inv),
       PdfOp.text "Notes:" 14 (finalY + 10),
       PdfOp.text inv.notes 14 (finalY + 10 + 5),
       PdfOp.save (inv.id ++ ".pdf")]
      (renderInvoicePDF inv (some logoData) false finalY) ∧
    (tableBody inv).length = inv.items.length ∧
    (pdfFoot inv).length = 3 ∧
    (renderInvoicePDF inv (some logoData) false finalY).getLast?
      = some (PdfOp.save (inv.id ++ ".pdf")) := by
  refine ⟨?_, by simp [tableBody], rfl, rfl⟩
  · simp only [renderInvoicePDF, printAddress, logoOps, List.cons_append,
      List.nil_append, List.append_assoc]
    simp only [Bool.false_eq_true, if_false]
    repeat first
    | exact List.Sublist.slnil
    | exact List.nil_sublist _
    | apply List.Sublist.cons₂
    | apply List.Sublist.cons

/-- C9: when the logo embed throws, the drawing sequence is the no-logo
sequence with a console warning added, so every later layout step, the
metadata, addresses, table, notes and the final save, is still performed
and generation runs to completion. -/
theorem logo_failure_continues (inv : Invoice) (logoData : String) (finalY : ℚ) :
    (renderInvoicePDF inv (some logoData) true finalY).filter
        (fun op => !op.isWarn)
      = renderInvoicePDF inv none false finalY ∧
    PdfOp.warn "Could not embed logo in PDF:"
      ∈ renderInvoicePDF inv (some logoData) true finalY ∧
    (renderInvoicePDF inv (some logoData) true finalY).getLast?
      = some (PdfOp.save (inv.id ++ ".pdf")) := by
  refine ⟨?_, ?_, rfl⟩
  · simp [renderInvoicePDF, logoOps, printAddress, PdfOp.isWarn, List.filter]
  · simp [renderInvoicePDF, logoOps]

/-- Witness for addItem_spec_amended at the initial items and clock value
7, a timestamp no existing item carries. -/
theorem addItem_spec_amended_witness :
    (addItem 7 initialItems).take initialItems.length = initialItems ∧
    (addItem 7 initialItems).getLast? =
      some { id := 7, description := "", quantity := 1, price := 0 } ∧
    (((addItem 7 initialItems).map LineItem.id).Nodup ↔
      (initialItems.map LineItem.id).Nodup ∧
        (7 : ℚ) ∉ initialItems.map LineItem.id) :=
  addItem_spec_amended initialItems 7
